import Mathlib

/-!
Verification of the yew-study study-session controller against its
natural-language specification.

The definitions below are a shallow embedding of the Rust sources:

* `Challenge`, `fetch_vocab_study_list` / `check_vocab_answer` result
  dispatch — `src/sl/study.rs` and the spawned closures in
  `src/pages/study.rs` (`load_next_vocab_list`, `get_answer_checked`);
* `StudyMode`, `Msg`, `Study`, `Study.create`, `Study.update`,
  `Study.view`, `Study.rendered` — `src/pages/study.rs`;
* `PromptProps`, `Prompt`, `Prompt.determine_hints`, `Prompt.update`,
  `Prompt.changed` — `src/components/prompt.rs`.

Asynchronous effects (`spawn_local`) are modelled as explicit commands:
`Study.update` returns the successor state together with the command,
if any, that the Rust code would spawn; the eventual completion of such
a command re-enters the controller as another `Msg` (via
`fetchResultMsg` / `checkResultMsg`, which embed the dispatch done in
the spawned closures).  The Rust `IntoIter<Challenge>` iterator is
modelled as the list of its remaining elements.
-/

/-- The vocabulary challenge record (`Challenge` in `src/sl/study.rs`,
fields `vocab_id`, `vocab_study_id`, `prompt`).

Modelled from the spec: the additional fields `pos`, `infinitive`,
`hint`, `user_notes`, `first_lang` and `num_learning_words` are the
Challenge attributes described in spec §3 (`partOfSpeech`,
`infinitive`, `hint`, `userNotes`, `firstLanguageText`, `wordCount`);
they are dereferenced by `src/components/prompt.rs` but their struct
declaration is not part of the `src/` snapshot, whose reduced
`Challenge` struct has only the first three fields. -/
structure Challenge where
  vocab_id : Int
  vocab_study_id : Int
  prompt : String
  pos : String
  infinitive : String
  hint : String
  user_notes : String
  first_lang : String
  num_learning_words : Int
deriving DecidableEq, Repr

/-- The zero value produced by `Challenge::default()` (derived
`Default`): all text empty, all numbers zero. -/
def Challenge.default : Challenge :=
  { vocab_id := 0
    vocab_study_id := 0
    prompt := ""
    pos := ""
    infinitive := ""
    hint := ""
    user_notes := ""
    first_lang := ""
    num_learning_words := 0 }

/-- `StudyMode` from `src/pages/study.rs`: the three UI modes of the
study page.  (The spec calls these kinds `Presenting`,
`ShowingOutcome` and `Failed`; the code has no separate `Loading`
variant.) -/
inductive StudyMode where
  | Challenge
  | Outcome
  | Error
deriving DecidableEq, Repr

/-- `Msg` from `src/pages/study.rs`: the messages driving the study
component.  Spec names: `BatchFetched` = `UpdateList`,
`DraftAnswerChanged` = `UpdateAnswer`, `SubmitRequested` =
`CheckAnswer`, `VerdictReceived` = `ShowAnswerResponse`,
`AdvanceRequested` = `NextChallenge`, `OperationFailed` =
`FetchError`. -/
inductive Msg where
  | UpdateList (res : List Challenge)
  | UpdateAnswer (answer : String)
  | CheckAnswer
  | ShowAnswerResponse (prompt : String)
  | NextChallenge
  | FetchError (err : String)
deriving DecidableEq, Repr

/-- The asynchronous operations the study page can spawn
(`spawn_local` in `src/pages/study.rs`): `fetchBatch` stands for
`load_next_vocab_list(link, awesome_id, limit)` and `submitAnswer`
for `get_answer_checked(link, answer, challenge)`. -/
inductive Cmd where
  | fetchBatch (awesome_id : Int) (limit : Int)
  | submitAnswer (answer : String) (challenge : Challenge)
deriving DecidableEq, Repr

/-- The state of the `Study` component (`src/pages/study.rs`).  The
Rust `iterator: IntoIter<Challenge>` is modelled as the list of its
remaining elements; the purely visual `button_ref: NodeRef` carries no
session state and is omitted. -/
structure Study where
  study_mode : StudyMode
  iterator : List Challenge
  challenge : Challenge
  prompt : String
  answer : String
  err_msg : String
deriving DecidableEq, Repr

/-- `Study::create` (`src/pages/study.rs` lines 176-186): mode
`Challenge`, empty iterator, default (zero-value) challenge, empty
prompt, answer and error text. -/
def Study.create : Study :=
  { study_mode := StudyMode.Challenge
    iterator := []
    challenge := Challenge.default
    prompt := ""
    answer := ""
    err_msg := "" }

/-- `Study::update` (`src/pages/study.rs` lines 198-250).  Returns the
successor state together with the command spawned by the handled
message, if any.  `res.into_iter()` followed by
`iterator.next().unwrap_or_default()` is the head of `res` (or the
default challenge) with the tail remaining; `iterator.clone().count()
== 0` is emptiness of the remaining list. -/
def Study.update (s : Study) (msg : Msg) : Study × Option Cmd :=
  match msg with
  | Msg.UpdateList res =>
      ({ s with
          iterator := res.tail
          challenge := res.head?.getD Challenge.default
          prompt := (res.head?.getD Challenge.default).prompt
          err_msg := ""
          study_mode := StudyMode.Challenge }, none)
  | Msg.UpdateAnswer answer =>
      ({ s with answer := answer, err_msg := "" }, none)
  | Msg.CheckAnswer =>
      ({ s with err_msg := "" }, some (Cmd.submitAnswer s.answer s.challenge))
  | Msg.ShowAnswerResponse prompt =>
      ({ s with prompt := prompt, err_msg := "", study_mode := StudyMode.Outcome }, none)
  | Msg.NextChallenge =>
      if s.iterator.isEmpty then
        (s, some (Cmd.fetchBatch 1 5))
      else
        ({ s with
            challenge := s.iterator.head?.getD Challenge.default
            iterator := s.iterator.tail
            prompt := (s.iterator.head?.getD Challenge.default).prompt
            err_msg := ""
            study_mode := StudyMode.Challenge }, none)
  | Msg.FetchError err =>
      ({ s with err_msg := err, study_mode := StudyMode.Error }, none)

/-- What `Study::view` (`src/pages/study.rs` lines 273-351) renders,
abstracted to the displayed text: in `Challenge` mode the header
`"Let's Do This"`, the current prompt and the answer input; in
`Outcome` mode the prompt with the Next button; in `Error` mode the
error message. -/
inductive ViewOut where
  | challengeScreen (header : String) (prompt : String)
  | outcomeScreen (prompt : String)
  | errorScreen (msg : String)
deriving DecidableEq, Repr

/-- The branch of `Study::view` selected by `study_mode`, with the
text it displays. -/
def Study.view (s : Study) : ViewOut :=
  match s.study_mode with
  | StudyMode.Challenge => ViewOut.challengeScreen ("Let's Do This") s.prompt
  | StudyMode.Outcome => ViewOut.outcomeScreen s.prompt
  | StudyMode.Error => ViewOut.errorScreen s.err_msg

/-- The command spawned by `Study::rendered` (`src/pages/study.rs`
lines 372-381): on the first render it calls
`load_next_vocab_list(link, 1, 5)`, otherwise nothing. -/
def Study.rendered (first_render : Bool) : Option Cmd :=
  if first_render then some (Cmd.fetchBatch 1 5) else none

/-- The message dispatch of the closure spawned by
`Study::load_next_vocab_list` (`src/pages/study.rs` lines 114-125): an
erring fetch sends `Msg::FetchError` with the error text, a successful
one sends `Msg::UpdateList` with the batch. -/
def fetchResultMsg (res : Except String (List Challenge)) : Msg :=
  match res with
  | Except.error e => Msg.FetchError e
  | Except.ok list => Msg.UpdateList list

/-- The message dispatch of the closure spawned by
`Study::get_answer_checked` (`src/pages/study.rs` lines 142-155): an
erring submit sends `Msg::FetchError` with the error text, a
successful one sends `Msg::ShowAnswerResponse` with the verdict. -/
def checkResultMsg (res : Except String String) : Msg :=
  match res with
  | Except.error e => Msg.FetchError e
  | Except.ok response_prompt => Msg.ShowAnswerResponse response_prompt

/-- Folding `Study.update` over a list of messages (the single UI
thread of spec §5 processing messages in arrival order), discarding
the spawned commands. -/
def Study.run (s : Study) : List Msg → Study
  | [] => s
  | m :: ms => Study.run (Study.update s m).1 ms

/-- Whether a message is `Msg::UpdateList` (a successful
`BatchFetched`). -/
def Msg.isUpdateList : Msg → Bool
  | Msg.UpdateList _ => true
  | _ => false

/-- Iterated `Msg::NextChallenge` (`AdvanceRequested`): the state after
`n` advance messages. -/
def advIter (s : Study) : Nat → Study
  | 0 => s
  | n + 1 => (Study.update (advIter s n) Msg.NextChallenge).1

/-- `PromptProps` from `src/components/prompt.rs`: the properties of
the `Prompt` component, carrying the current challenge. -/
structure PromptProps where
  challenge : Challenge
deriving DecidableEq, Repr

/-- The single message of the `Prompt` component
(`src/components/prompt.rs`): `Help` asks for one more hint. -/
inductive Prompt.Msg where
  | Help
deriving DecidableEq, Repr

/-- The state of the `Prompt` component (`src/components/prompt.rs`):
current props, the hints still available and the hints already
displayed.  The Rust `Vec<String>` fields are modelled as lists whose
last element is the top of the `push`/`pop` end. -/
structure Prompt where
  props : PromptProps
  available_hints : List String
  display_hints : List String
deriving DecidableEq, Repr

/-- `Prompt::determine_hints` (`src/components/prompt.rs` lines
21-51): pushes, in this fixed order, the part of speech, the
infinitive, the other hint and the user notes of the props challenge,
each formatted with its label and only if the field is non-empty. -/
def Prompt.determine_hints (props : PromptProps) : List String :=
  let challenge := props.challenge
  let hints : List String := []
  let hints := if !challenge.pos.isEmpty then
      hints ++ ["    Part of Speech: " ++ challenge.pos] else hints
  let hints := if !challenge.infinitive.isEmpty then
      hints ++ ["    Infinitive: " ++ challenge.infinitive] else hints
  let hints := if !challenge.hint.isEmpty then
      hints ++ ["    Other Hints: " ++ challenge.hint] else hints
  let hints := if !challenge.user_notes.isEmpty then
      hints ++ ["    Your Notes: " ++ challenge.user_notes] else hints
  hints

/-- `Prompt::create` (`src/components/prompt.rs` lines 58-65): stores
the props and starts with both hint lists empty (hints are only
computed in `changed`). -/
def Prompt.create (props : PromptProps) : Prompt :=
  { props := props, available_hints := [], display_hints := [] }

/-- `Prompt::update` (`src/components/prompt.rs` lines 67-79): on
`Help`, `Vec::pop` removes the LAST available hint, if any, and pushes
it onto the displayed hints; with no available hint nothing changes. -/
def Prompt.update (p : Prompt) (msg : Prompt.Msg) : Prompt :=
  match msg with
  | Prompt.Msg.Help =>
      match p.available_hints.getLast? with
      | some hint =>
          { p with
              available_hints := p.available_hints.dropLast
              display_hints := p.display_hints ++ [hint] }
      | none => p

/-- `Prompt::changed` (`src/components/prompt.rs` lines 81-92): when
the incoming props carry a different challenge, the props are replaced
and `available_hints` is recomputed via `determine_hints`
(`display_hints` is left untouched by the code); otherwise nothing
changes.  The boolean is the re-render flag the Rust method returns. -/
def Prompt.changed (p : Prompt) (newProps : PromptProps) : Prompt × Bool :=
  if p.props.challenge ≠ newProps.challenge then
    ({ props := newProps
       available_hints := Prompt.determine_hints newProps
       display_hints := p.display_hints }, true)
  else
    (p, false)

/-- The hint state for a challenge that has just become current with
no hints revealed yet: `available_hints` freshly computed, no
displayed hints (the state `Prompt.changed` produces when the previous
`display_hints` was empty). -/
def Prompt.fresh (c : Challenge) : Prompt :=
  { props := { challenge := c }
    available_hints := Prompt.determine_hints { challenge := c }
    display_hints := [] }

/-- Iterated `Help` messages: the prompt state after `n` hint
requests. -/
def Prompt.helpIter (p : Prompt) : Nat → Prompt
  | 0 => p
  | n + 1 => Prompt.update (Prompt.helpIter p n) Prompt.Msg.Help

/-- The controller state right after a successful `BatchFetched`
delivering batch `b` to the freshly created component. -/
def afterBatch (b : List Challenge) : Study :=
  (Study.update Study.create (Msg.UpdateList b)).1

/-- A concrete challenge with prompt `"cat"`, used as witness data. -/
def cCat : Challenge :=
  { Challenge.default with vocab_id := 1, vocab_study_id := 11, prompt := "cat" }

/-- A concrete challenge with prompt `"dog"`, used as witness data. -/
def cDog : Challenge :=
  { Challenge.default with vocab_id := 2, vocab_study_id := 12, prompt := "dog" }

/-- A concrete challenge whose only non-empty hint field is the part
of speech, used as witness data for the hint cascade. -/
def cNoun : Challenge :=
  { Challenge.default with vocab_id := 3, pos := "noun" }

section Helpers

variable {α : Type _}

/-- The head of `l.drop n` is the `n`-th element of `l`. -/
lemma head?_drop_eq (l : List α) (n : Nat) : (l.drop n).head? = l.get? n := by
  induction n generalizing l with
  | zero => cases l <;> rfl
  | succ n ih =>
    cases l with
    | nil => rfl
    | cons a t => exact ih t

/-- `l.take (n+1)` is `l.take n` extended by the `n`-th element of
`l`, when present. -/
lemma take_succ_eq (l : List α) (n : Nat) :
    l.take (n + 1) = l.take n ++ (l.get? n).toList := by
  induction n generalizing l with
  | zero => cases l <;> rfl
  | succ n ih =>
    cases l with
    | nil => rfl
    | cons a t =>
      show a :: t.take (n + 1) = (a :: t.take n) ++ (t.get? n).toList
      rw [ih, List.cons_append]

/-- `Msg::NextChallenge` with an exhausted iterator leaves the state
untouched and spawns `load_next_vocab_list(link, 1, 5)`. -/
lemma update_nextChallenge_empty (s : Study) (h : s.iterator = []) :
    Study.update s Msg.NextChallenge = (s, some (Cmd.fetchBatch 1 5)) := by
  simp [Study.update, h]

/-- The Rust guard `!s.is_empty()` is false on the empty string. -/
lemma bang_isEmpty_eq_false {s : String} (h : s = "") : (!s.isEmpty) = false := by
  subst h
  rfl

/-- The Rust guard `!s.is_empty()` is true on a non-empty string. -/
lemma bang_isEmpty_eq_true {s : String} (h : s ≠ "") : (!s.isEmpty) = true := by
  cases he : s.isEmpty
  · rfl
  · exact absurd ((String.isEmpty_iff s).mp he) h

end Helpers

/-- Claim C2 (amended): `BatchFetched(res)` from any state replaces
the queue wholesale with the batch (order preserved, no merge with the
previous iterator), makes the head of the batch current with its
prompt, clears the error text, sets mode `Challenge` and spawns
nothing — but it does NOT clear the draft answer, which is carried
over unchanged, and an empty batch also results in mode `Challenge`
(with the zero-value placeholder as current challenge) rather than a
persisting loading state. -/
theorem batchFetched_replaces_queue (s : Study) (res : List Challenge) :
    Study.update s (Msg.UpdateList res) =
      ({ study_mode := StudyMode.Challenge
         iterator := res.tail
         challenge := res.head?.getD Challenge.default
         prompt := (res.head?.getD Challenge.default).prompt
         answer := s.answer
         err_msg := "" }, none) := rfl

/-- Claim C2, counterexample to the claim as stated: after the draft
answer `"gato"` is entered, processing `BatchFetched` leaves the draft
equal to `"gato"`, not cleared; and `BatchFetched` with an empty batch
sets mode `Challenge`, not a persisting loading state. -/
theorem batchFetched_keeps_draft_counterexample :
    ((Study.update ((Study.update Study.create (Msg.UpdateAnswer ("gato"))).1)
        (Msg.UpdateList [cCat])).1).answer = "gato"
    ∧ ("gato" : String) ≠ ""
    ∧ ((Study.update Study.create (Msg.UpdateList [])).1).study_mode
        = StudyMode.Challenge := by
  refine ⟨rfl, ?_, rfl⟩
  decide

/-- Claim C4 (amended): `AdvanceRequested` with an empty queue spawns
an asynchronous `fetchBatch(1, 5)` and leaves the controller state
completely unchanged — there is no transition to any loading state;
the mode stays whatever it was until the resulting message arrives. -/
theorem advance_empty_queue_refetch (s : Study) (h : s.iterator = []) :
    Study.update s Msg.NextChallenge = (s, some (Cmd.fetchBatch 1 5)) :=
  update_nextChallenge_empty s h

/-- Claim C4, witness: applying the theorem in the concrete
`ShowingOutcome` state reached after a verdict. -/
theorem advance_empty_queue_refetch_witness :
    Study.update ((Study.update Study.create (Msg.ShowAnswerResponse ("ok"))).1)
        Msg.NextChallenge
      = ((Study.update Study.create (Msg.ShowAnswerResponse ("ok"))).1,
         some (Cmd.fetchBatch 1 5)) :=
  advance_empty_queue_refetch _ rfl

/-- Claim C4, counterexample to the claim as stated: in the
`ShowingOutcome` state after a verdict, `AdvanceRequested` with the
empty queue leaves the state identical — in particular the mode is
still `Outcome`, not any loading state. -/
theorem advance_empty_no_loading_counterexample :
    (Study.update ((Study.update Study.create (Msg.ShowAnswerResponse ("ok"))).1)
        Msg.NextChallenge).1
      = (Study.update Study.create (Msg.ShowAnswerResponse ("ok"))).1
    ∧ ((Study.update ((Study.update Study.create (Msg.ShowAnswerResponse ("ok"))).1)
        Msg.NextChallenge).1).study_mode = StudyMode.Outcome :=
  ⟨rfl, rfl⟩

/-- Claim C8 (confirmed): for every state and any two batches,
processing `BatchFetched(b1)` then `BatchFetched(b2)` produces exactly
the same state (and command) as processing `BatchFetched(b2)` alone:
the last batch to arrive silently overwrites the queue, current
challenge, prompt and error text; nothing fences stale completions. -/
theorem last_batchFetched_wins (s : Study) (b1 b2 : List Challenge) :
    Study.update ((Study.update s (Msg.UpdateList b1)).1) (Msg.UpdateList b2)
      = Study.update s (Msg.UpdateList b2) := rfl

/-- Claim C9 (confirmed): every rejected fetch or submit is dispatched
as the single message `Msg::FetchError` carrying the error text, which
from any state stores the message and moves the mode to `Error`; and
`Error` is not terminal — any later successful fetch
(`Msg::UpdateList`) sets mode `Challenge` (Presenting) and any later
successful submit (`Msg::ShowAnswerResponse`) sets mode `Outcome`
(ShowingOutcome). -/
theorem operation_failed_single_and_recoverable :
    (∀ e : String, fetchResultMsg (Except.error e) = Msg.FetchError e
        ∧ checkResultMsg (Except.error e) = Msg.FetchError e)
    ∧ (∀ (s : Study) (e : String),
        Study.update s (Msg.FetchError e)
          = ({ s with err_msg := e, study_mode := StudyMode.Error }, none))
    ∧ (∀ (s : Study) (b : List Challenge),
        ((Study.update s (Msg.UpdateList b)).1).study_mode = StudyMode.Challenge)
    ∧ (∀ (s : Study) (v : String),
        ((Study.update s (Msg.ShowAnswerResponse v)).1).study_mode = StudyMode.Outcome) :=
  ⟨fun _ => ⟨rfl, rfl⟩, fun _ _ => rfl, fun _ _ => rfl, fun _ _ => rfl⟩

/-- Claim C10 (confirmed): the initial fetch spawned on first render
is `fetchBatch(1, 5)`, no fetch is spawned on later renders, and every
`fetchBatch` command any message handler can ever spawn carries
subject id 1 and limit 5. -/
theorem fetch_params_hardcoded :
    Study.rendered true = some (Cmd.fetchBatch 1 5)
    ∧ Study.rendered false = none
    ∧ ∀ (s : Study) (m : Msg) (a l : Int),
        (Study.update s m).2 = some (Cmd.fetchBatch a l) → a = 1 ∧ l = 5 := by
  refine ⟨rfl, rfl, ?_⟩
  intro s m a l h
  cases m with
  | UpdateList res => simp [Study.update] at h
  | UpdateAnswer ans => simp [Study.update] at h
  | CheckAnswer => simp [Study.update] at h
  | ShowAnswerResponse p => simp [Study.update] at h
  | NextChallenge =>
    by_cases hi : s.iterator.isEmpty <;> simp [Study.update, hi] at h
    exact ⟨h.1.symm, h.2.symm⟩
  | FetchError e => simp [Study.update] at h

/-- Claim C10, witness: the refill fetch issued by `AdvanceRequested`
on the empty initial queue is `fetchBatch(1, 5)`, and the theorem
applies to it. -/
theorem fetch_params_hardcoded_witness :
    (Study.update Study.create Msg.NextChallenge).2 = some (Cmd.fetchBatch 1 5)
    ∧ ((1 : Int) = 1 ∧ (5 : Int) = 5) :=
  ⟨rfl, fetch_params_hardcoded.2.2 Study.create Msg.NextChallenge 1 5 rfl⟩

/-- Before any `Msg::UpdateList` has been processed, the controller
never holds a real challenge: the challenge field stays the zero value
and the iterator stays empty. -/
lemma run_no_updateList_inv (msgs : List Msg) :
    ∀ s : Study, s.challenge = Challenge.default → s.iterator = [] →
    (∀ m ∈ msgs, m.isUpdateList = false) →
    (Study.run s msgs).challenge = Challenge.default
      ∧ (Study.run s msgs).iterator = [] := by
  induction msgs with
  | nil => exact fun s h1 h2 _ => ⟨h1, h2⟩
  | cons m ms ih =>
    intro s h1 h2 hm
    have hms : ∀ x ∈ ms, x.isUpdateList = false :=
      fun x hx => hm x (List.mem_cons_of_mem m hx)
    have hstep : ((Study.update s m).1).challenge = Challenge.default
        ∧ ((Study.update s m).1).iterator = [] := by
      cases m with
      | UpdateList res =>
        have hcontra := hm (Msg.UpdateList res) (List.mem_cons_self _ _)
        simp [Msg.isUpdateList] at hcontra
      | UpdateAnswer ans => simp [Study.update, h1, h2]
      | CheckAnswer => simp [Study.update, h1, h2]
      | ShowAnswerResponse p => simp [Study.update, h1, h2]
      | NextChallenge => simp [Study.update, h1, h2]
      | FetchError e => simp [Study.update, h1, h2]
    have hrun := ih (Study.update s m).1 hstep.1 hstep.2 hms
    simpa [Study.run] using hrun

/-- Claim C1 (amended): before the first successful `BatchFetched` the
controller holds no real challenge — along every message history
avoiding `Msg::UpdateList`, the challenge field remains the zero-value
placeholder and the queue remains empty — but the state kind is
`StudyMode::Challenge` from creation on (the code has no separate
loading kind), and the view of the initial state already renders the
ordinary challenge screen with the placeholder's empty prompt. -/
theorem zero_value_before_first_batch (msgs : List Msg)
    (h : ∀ m ∈ msgs, m.isUpdateList = false) :
    Study.create.study_mode = StudyMode.Challenge
    ∧ (Study.run Study.create msgs).challenge = Challenge.default
    ∧ (Study.run Study.create msgs).iterator = []
    ∧ Study.view Study.create = ViewOut.challengeScreen ("Let's Do This") "" := by
  have hrun := run_no_updateList_inv msgs Study.create rfl rfl h
  exact ⟨rfl, hrun.1, hrun.2, rfl⟩

/-- Claim C1, witness: along the concrete pre-batch history of one
advance and one failed fetch, the challenge is still the zero value
and the queue is still empty. -/
theorem zero_value_before_first_batch_witness :
    (Study.run Study.create [Msg.NextChallenge, Msg.FetchError ("down")]).challenge
        = Challenge.default
    ∧ (Study.run Study.create [Msg.NextChallenge, Msg.FetchError ("down")]).iterator
        = [] := by
  have h := zero_value_before_first_batch
    [Msg.NextChallenge, Msg.FetchError ("down")] (by decide)
  exact ⟨h.2.1, h.2.2.1⟩

/-- Claim C1, counterexample to the claim as stated: the initial state
produced by `create` has state kind `StudyMode::Challenge` — the very
kind used to present real challenges, not a loading kind — and its
view is the challenge screen showing the zero-value placeholder's
empty prompt, literally identical to the view shown for a real fetched
challenge whose prompt is empty.  The placeholder is therefore
presented as real challenge content. -/
theorem zero_value_surfaces_counterexample :
    Study.create.study_mode = StudyMode.Challenge
    ∧ Study.create.challenge = Challenge.default
    ∧ Study.view Study.create
        = ViewOut.challengeScreen ("Let's Do This") (Challenge.default.prompt)
    ∧ Study.view (Study.run Study.create
          [Msg.UpdateList [{ Challenge.default with vocab_id := 7 }]])
        = Study.view Study.create :=
  ⟨rfl, rfl, rfl, rfl⟩

/-- After `BatchFetched(b)` and `n` further advances (`n` within the
batch), the iterator holds exactly the part of `b` after position `n`
and the current challenge is `b`'s element at position `n`. -/
lemma advIter_batch_inv (b : List Challenge) :
    ∀ n, n < b.length →
      (advIter (afterBatch b) n).iterator = b.drop (n + 1)
      ∧ (advIter (afterBatch b) n).challenge
          = ((b.drop n).head?).getD Challenge.default := by
  intro n
  induction n with
  | zero =>
    intro _
    refine ⟨?_, ?_⟩
    · simp [advIter, afterBatch, Study.update, List.drop_one]
    · simp [advIter, afterBatch, Study.update]
  | succ n ih =>
    intro h
    obtain ⟨hit, hch⟩ := ih (Nat.lt_of_succ_lt h)
    have hne : b.drop (n + 1) ≠ [] := by
      intro hnil
      rw [List.drop_eq_nil_iff] at hnil
      omega
    obtain ⟨x, t, hxt⟩ := List.exists_cons_of_ne_nil hne
    rw [hxt] at hit
    have htail : b.drop (n + 2) = t := by
      rw [← List.tail_drop, hxt, List.tail_cons]
    refine ⟨?_, ?_⟩
    · show ((Study.update (advIter (afterBatch b) n) Msg.NextChallenge).1).iterator
          = b.drop (n + 2)
      rw [htail]
      simp [Study.update, hit]
    · show ((Study.update (advIter (afterBatch b) n) Msg.NextChallenge).1).challenge
          = ((b.drop (n + 1)).head?).getD Challenge.default
      simp [Study.update, hit, hxt]

/-- Claim C3 (amended): for a batch of `N ≥ 1` challenges the first
challenge becomes current at `BatchFetched` itself; each of the
following `N - 1` `AdvanceRequested` messages yields the next
challenge of the batch and spawns nothing; after them the queue is
exhausted, and the `N`-th `AdvanceRequested` spawns a new
`fetchBatch(1, 5)` rather than yielding a challenge. -/
theorem queue_exhaustion_behavior (b : List Challenge) (hb : b ≠ []) :
    (∀ n, n + 1 < b.length →
        (Study.update (advIter (afterBatch b) n) Msg.NextChallenge).2 = none
        ∧ b.get? (n + 1) = some ((advIter (afterBatch b) (n + 1)).challenge))
    ∧ (advIter (afterBatch b) (b.length - 1)).iterator = []
    ∧ (Study.update (advIter (afterBatch b) (b.length - 1)) Msg.NextChallenge).2
        = some (Cmd.fetchBatch 1 5) := by
  have hpos : 0 < b.length := List.length_pos.mpr hb
  have hlast : (advIter (afterBatch b) (b.length - 1)).iterator = [] := by
    obtain ⟨hit, _⟩ := advIter_batch_inv b (b.length - 1) (by omega)
    rw [hit]
    have : b.length - 1 + 1 = b.length := by omega
    rw [this, List.drop_length]
  refine ⟨?_, hlast, ?_⟩
  · intro n hn
    obtain ⟨hit, _⟩ := advIter_batch_inv b n (by omega)
    have hne : b.drop (n + 1) ≠ [] := by
      intro hnil
      rw [List.drop_eq_nil_iff] at hnil
      omega
    obtain ⟨x, t, hxt⟩ := List.exists_cons_of_ne_nil hne
    rw [hxt] at hit
    refine ⟨?_, ?_⟩
    · simp [Study.update, hit]
    · obtain ⟨_, hch⟩ := advIter_batch_inv b (n + 1) hn
      rw [hch, ← head?_drop_eq, hxt]
      rfl
  · rw [update_nextChallenge_empty _ hlast]

/-- Claim C3, witness: for the concrete batch `[cCat, cDog]` (N = 2),
the first advance yields `cDog` and spawns nothing, after it the queue
is exhausted, and the second advance spawns `fetchBatch(1, 5)`. -/
theorem queue_exhaustion_behavior_witness :
    (Study.update (advIter (afterBatch [cCat, cDog]) 0) Msg.NextChallenge).2 = none
    ∧ [cCat, cDog].get? 1 = some ((advIter (afterBatch [cCat, cDog]) 1).challenge)
    ∧ (advIter (afterBatch [cCat, cDog]) 1).iterator = []
    ∧ (Study.update (advIter (afterBatch [cCat, cDog]) 1) Msg.NextChallenge).2
        = some (Cmd.fetchBatch 1 5) := by
  have h := queue_exhaustion_behavior [cCat, cDog] (by simp)
  have h1 := h.1 0 (by simp)
  exact ⟨h1.1, h1.2, h.2.1, h.2.2⟩

/-- Claim C3, counterexample to the claim as stated: for a batch of
N = 1 challenge, the claim predicts that one advance is still needed
to exhaust the queue and only the second advance triggers a fetch; in
the code the queue is already empty right after `BatchFetched`
(`N - 1 = 0` advances), and already the FIRST advance spawns
`fetchBatch(1, 5)` instead of yielding a challenge (the current
challenge does not change). -/
theorem queue_exhaustion_counterexample :
    (afterBatch [cCat]).iterator = []
    ∧ (Study.update (afterBatch [cCat]) Msg.NextChallenge).2
        = some (Cmd.fetchBatch 1 5)
    ∧ ((Study.update (afterBatch [cCat]) Msg.NextChallenge).1).challenge = cCat :=
  ⟨rfl, rfl, rfl⟩

/-- Closed form of iterated `Help` handling: after `n` hint requests
the displayed hints have grown by the first `n` elements of the
reversed available list (the `Vec` is consumed from its end) and the
available hints are what remains of it. -/
lemma helpIter_spec (props : PromptProps) (avail disp : List String) :
    ∀ n : Nat,
      Prompt.helpIter
          { props := props, available_hints := avail, display_hints := disp } n
        = { props := props
            available_hints := (avail.reverse.drop n).reverse
            display_hints := disp ++ avail.reverse.take n } := by
  intro n
  induction n with
  | zero => simp [Prompt.helpIter]
  | succ n ih =>
    rw [Prompt.helpIter, ih]
    rcases hcase : avail.reverse.drop n with _ | ⟨x, t⟩
    · have hlen : avail.reverse.length ≤ n := List.drop_eq_nil_iff.mp hcase
      have h1 : avail.reverse.drop (n + 1) = [] :=
        List.drop_eq_nil_iff.mpr (by omega)
      have h2 : avail.reverse.take (n + 1) = avail.reverse.take n := by
        rw [List.take_of_length_le hlen, List.take_of_length_le (by omega)]
      rw [h1, h2]
      simp [Prompt.update]
    · have h1 : avail.reverse.drop (n + 1) = t := by
        rw [← List.tail_drop, hcase, List.tail_cons]
      have h2 : avail.reverse.take (n + 1) = avail.reverse.take n ++ [x] := by
        rw [take_succ_eq, ← head?_drop_eq, hcase]
        rfl
      rw [h1, h2]
      simp [Prompt.update, List.getLast?_concat, List.dropLast_concat,
        List.reverse_cons]

/-- Claim C6 (confirmed): with a fixed current challenge, after any
number `n` of `Help` (revealNext) requests the number of displayed
hints plus the number of available hints equals the total number of
hints computed for the challenge; and a `Help` request with no
available hint is a no-op leaving the whole prompt state unchanged
(nothing panics, nothing is displayed). -/
theorem hint_accounting_invariant (c : Challenge) (n : Nat) :
    (((Prompt.fresh c).helpIter n).display_hints.length
        + ((Prompt.fresh c).helpIter n).available_hints.length
      = (Prompt.determine_hints { challenge := c }).length)
    ∧ ∀ p : Prompt, p.available_hints = [] → Prompt.update p Prompt.Msg.Help = p := by
  constructor
  · have h : Prompt.helpIter (Prompt.fresh c) n
        = { props := { challenge := c }
            available_hints :=
              ((Prompt.determine_hints { challenge := c }).reverse.drop n).reverse
            display_hints :=
              [] ++ (Prompt.determine_hints { challenge := c }).reverse.take n } :=
      helpIter_spec { challenge := c } (Prompt.determine_hints { challenge := c }) [] n
    rw [h]
    simp [List.length_take, List.length_drop]
    omega
  · intro p hp
    simp [Prompt.update, hp]

/-- Claim C6, witness: for the one-hint challenge `cNoun` and two
requests the accounting holds, and a `Help` on a concrete prompt state
with no available hints changes nothing. -/
theorem hint_accounting_invariant_witness :
    ((((Prompt.fresh cNoun).helpIter 2).display_hints.length
        + ((Prompt.fresh cNoun).helpIter 2).available_hints.length
      = (Prompt.determine_hints { challenge := cNoun }).length))
    ∧ Prompt.update
          { props := { challenge := cNoun }
            available_hints := []
            display_hints := ["    Part of Speech: noun"] } Prompt.Msg.Help
        = { props := { challenge := cNoun }
            available_hints := []
            display_hints := ["    Part of Speech: noun"] } :=
  ⟨(hint_accounting_invariant cNoun 2).1,
   (hint_accounting_invariant cNoun 2).2 _ rfl⟩

/-- Claim C7 (confirmed): `determine_hints` builds the hint list in
the fixed precedence order part of speech, infinitive, other hint,
user notes, each formatted field included exactly when non-empty; and
after `n` `Help` requests the displayed hints are the first `n`
elements of the REVERSE of that list, because `Vec::pop` consumes the
underlying container from the end. -/
theorem hint_precedence_and_reverse_reveal (c : Challenge) (n : Nat) :
    Prompt.determine_hints { challenge := c }
      = [if c.pos = "" then none else some ("    Part of Speech: " ++ c.pos),
         if c.infinitive = "" then none else some ("    Infinitive: " ++ c.infinitive),
         if c.hint = "" then none else some ("    Other Hints: " ++ c.hint),
         if c.user_notes = "" then none
           else some ("    Your Notes: " ++ c.user_notes)].reduceOption
    ∧ ((Prompt.fresh c).helpIter n).display_hints
        = (Prompt.determine_hints { challenge := c }).reverse.take n := by
  constructor
  · by_cases h1 : c.pos = "" <;> by_cases h2 : c.infinitive = "" <;>
      by_cases h3 : c.hint = "" <;> by_cases h4 : c.user_notes = "" <;>
      simp [Prompt.determine_hints, List.reduceOption, h1, h2, h3, h4,
        bang_isEmpty_eq_false, bang_isEmpty_eq_true]
  · have h : Prompt.helpIter (Prompt.fresh c) n
        = { props := { challenge := c }
            available_hints :=
              ((Prompt.determine_hints { challenge := c }).reverse.drop n).reverse
            display_hints :=
              [] ++ (Prompt.determine_hints { challenge := c }).reverse.take n } :=
      helpIter_spec { challenge := c } (Prompt.determine_hints { challenge := c }) [] n
    rw [h]
    simp

/-- Claim C5 (code bug): revealing the single hint of `cNoun` and then
changing the current challenge to the zero-value challenge (which has
no hints) leaves the previously displayed hint in `display_hints` —
`Prompt::changed` recomputes `available_hints` but never clears
`display_hints` — so the revealed list does not reset and the hint
accounting `len(revealed) + len(available) = total hints of the new
challenge` fails (1 ≠ 0). -/
theorem hint_state_stale_on_challenge_change :
    ((Prompt.changed (Prompt.update (Prompt.fresh cNoun) Prompt.Msg.Help)
        { challenge := Challenge.default }).1).display_hints
      = ["    Part of Speech: noun"]
    ∧ ((Prompt.changed (Prompt.update (Prompt.fresh cNoun) Prompt.Msg.Help)
        { challenge := Challenge.default }).1).available_hints = []
    ∧ Prompt.determine_hints { challenge := Challenge.default } = []
    ∧ ((Prompt.changed (Prompt.update (Prompt.fresh cNoun) Prompt.Msg.Help)
          { challenge := Challenge.default }).1).display_hints.length
        + ((Prompt.changed (Prompt.update (Prompt.fresh cNoun) Prompt.Msg.Help)
          { challenge := Challenge.default }).1).available_hints.length
      ≠ (Prompt.determine_hints { challenge := Challenge.default }).length := by
  refine ⟨?_, ?_, ?_, ?_⟩ <;> decide
